import Mathlib

/-!
Verification development for the tripnaraht geospatial route metrics pipeline
and its difficulty scoring engine.

Shallow embedding of the relevant parts of
`src/models/trail_difficulty.py` (the rule-based difficulty classifier) and
`src/tools/end2end_difficulty_with_geojson.py` (polyline codec, resampler,
terrain-tile sampling, metric calculation).

Modelling conventions:
  - Python floats are modelled as exact rationals.  All concrete inputs in the
    theorems below use short decimal values for which binary floating point and
    exact rational arithmetic agree on every comparison and result involved.
  - Python `round` (banker style) is modelled by `rndHalfEven`, and `int()`
    truncation toward zero by `pyInt`.
  - Python dictionaries of optional attributes become a structure of `Option`
    fields; `dict.get` with a default becomes `Option.getD` or a defaulted
    field.  Python truthiness tests on strings and numbers are translated
    explicitly (empty string and `0.0` are falsy).
  - `str.upper` and `str.lower` are modelled by ASCII case mapping; every
    keyword the code compares against is ASCII, and non-ASCII characters are
    fixed points of both the Python and the modelled maps.
  - `haversine_distance` is transcendental (sin, cos, atan2); components whose
    control flow consumes distances are therefore parametrised by the distance
    function, and the proved invariants hold for every distance function,
    in particular the haversine one.  Unbounded `while` loops are embedded
    with an explicit fuel parameter; the embedded function agrees with the
    Python loop on every terminating run once the fuel is large enough, and
    the invariants proved below hold for every fuel value.
  - The Web-Mercator projection inside `latlon_to_tile` is transcendental as
    well; its final pixel computation (the part the tile-sampling claim is
    about) is embedded exactly, parametrised by the real-valued sub-tile
    position ratios that the projection produces.
-/

/-! ## Generic numeric and string helpers -/

/-- Python `round` on a rational value: round half to even. -/
def rndHalfEven (q : ℚ) : ℤ :=
  let f := ⌊q⌋
  let r := q - (f : ℚ)
  if r < 1/2 then f
  else if r > 1/2 then f + 1
  else if f % 2 = 0 then f else f + 1

/-- Python `int()` on a rational value: truncation toward zero. -/
def pyInt (q : ℚ) : ℤ := if q < 0 then -⌊-q⌋ else ⌊q⌋

/-- Python `round(x, 2)`: keep two decimal places. -/
def round2 (q : ℚ) : ℚ := (rndHalfEven (q * 100) : ℚ) / 100

/-- Decimal digits of a natural number, with fuel (the number itself bounds
the recursion depth). -/
def natDigits : ℕ → ℕ → List Char
  | 0, n => [Char.ofNat (n % 10 + 48)]
  | fuel + 1, n =>
    if n < 10 then [Char.ofNat (n + 48)]
    else natDigits fuel (n / 10) ++ [Char.ofNat (n % 10 + 48)]

/-- Render a nonnegative rational with two decimal places, as Python
`f"{x:.2f}"` does for the nonnegative multiplier values it is applied to. -/
def fmt2 (q : ℚ) : String :=
  let m := (rndHalfEven (q * 100)).toNat
  ⟨natDigits (m / 100) (m / 100) ++ ['.'] ++
    (if m % 100 < 10 then ['0'] else []) ++ natDigits (m % 100) (m % 100)⟩

/-- ASCII upper-casing of one character (models Python `str.upper` on the
ASCII keywords the code compares against). -/
def asciiUpper (c : Char) : Char :=
  if 97 ≤ c.toNat ∧ c.toNat ≤ 122 then Char.ofNat (c.toNat - 32) else c

/-- ASCII lower-casing of one character. -/
def asciiLower (c : Char) : Char :=
  if 65 ≤ c.toNat ∧ c.toNat ≤ 90 then Char.ofNat (c.toNat + 32) else c

/-- Python `str.upper`. -/
def upperStr (s : String) : String := ⟨s.data.map asciiUpper⟩

/-- Python `str.lower`. -/
def lowerStr (s : String) : String := ⟨s.data.map asciiLower⟩

/-- Python `str.strip`: drop whitespace from both ends. -/
def stripList (l : List Char) : List Char :=
  ((l.dropWhile Char.isWhitespace).reverse.dropWhile Char.isWhitespace).reverse

/-- Does `s` start with `pat`? -/
def startsWith : List Char → List Char → Bool
  | [], _ => true
  | _ :: _, [] => false
  | p :: ps, c :: cs => p == c && startsWith ps cs

/-- Python `pat in text`: substring containment. -/
def containsSub (pat : List Char) : List Char → Bool
  | [] => startsWith pat []
  | s@(_ :: rest) => startsWith pat s || containsSub pat rest

/-- Case-insensitive prefix test against a pattern given as
(lower, upper) character pairs (models `re.IGNORECASE` on ASCII). -/
def startsWithCI : List (Char × Char) → List Char → Bool
  | [], _ => true
  | _ :: _, [] => false
  | (lo, hi) :: ps, c :: cs => (c == lo || c == hi) && startsWithCI ps cs

/-- Numeric value of one ASCII digit character. -/
def digitVal (c : Char) : ℕ :=
  if c == '1' then 1 else if c == '2' then 2 else if c == '3' then 3
  else if c == '4' then 4 else if c == '5' then 5 else if c == '6' then 6
  else if c == '7' then 7 else if c == '8' then 8 else if c == '9' then 9
  else 0

/-- Numeric value of a digit string. -/
def digitsVal (l : List Char) : ℕ := l.foldl (fun a c => 10 * a + digitVal c) 0

/-- Value of `float("<ds>.<fs>")` for digit strings `ds` and `fs`
(`fs = []` for an integer literal). -/
def numValue (ds fs : List Char) : ℚ :=
  (digitsVal ds : ℚ) + (digitsVal fs : ℚ) / (10 : ℚ) ^ fs.length

/-! ## Difficulty scoring engine (`src/models/trail_difficulty.py`) -/

/-- The four difficulty labels. -/
inductive DifficultyLabel
  | EASY
  | MODERATE
  | HARD
  | EXTREME
deriving DecidableEq, Repr

/-- The string name of a label, as in the Python `str` enum. -/
def labelToString : DifficultyLabel → String
  | .EASY => "EASY"
  | .MODERATE => "MODERATE"
  | .HARD => "HARD"
  | .EXTREME => "EXTREME"

/-- `DifficultyLabel[s]` combined with the membership test
`s in ['EASY', 'MODERATE', 'HARD', 'EXTREME']`. -/
def labelOfString (s : String) : Option DifficultyLabel :=
  if s = "EASY" then some DifficultyLabel.EASY
  else if s = "MODERATE" then some DifficultyLabel.MODERATE
  else if s = "HARD" then some DifficultyLabel.HARD
  else if s = "EXTREME" then some DifficultyLabel.EXTREME
  else none

/-- The recognized optional attributes of `input_data`.  Fields read with
`dict.get(key)` are `Option`; `hasAcclimatization` is read with default
`False` and `coldDurationHours` with default `0`. -/
structure InputData where
  trailDifficulty : Option String := none
  category : Option String := none
  accessType : Option String := none
  visitDuration : Option String := none
  typicalStay : Option String := none
  elevationMeters : Option ℚ := none
  latitude : Option ℚ := none
  subCategory : Option String := none
  hasAcclimatization : Bool := false
  avgSleepElevation : Option ℚ := none
  exposureHours : Option ℚ := none
  feelsLikeTemp : Option ℚ := none
  coldDurationHours : ℚ := 0
  loadWeightKg : Option ℚ := none

/-- Priority 1 of `estimate_difficulty`: `if trail_difficulty and
trail_difficulty.upper() in [...]`.  A `None` or empty string is falsy. -/
def trailOverride (td : Option String) : Option DifficultyLabel :=
  match td with
  | none => none
  | some s => if s = "" then none else labelOfString (upperStr s)

/-- `_parse_duration`: duration text to hours.  The Chinese whole-day phrases
are checked first; then the three regular-expression searches for
hours (`小时|h|hr|hrs`, case-insensitive), days (`天`) and minutes
(`分钟|min|mins`, case-insensitive).  The regex searches are embedded with
leftmost-match semantics; the number part is greedy digits with an optional
fractional part, which is taken when present and dropped on backtracking. -/
def tryUnit (unitTest : List Char → Bool) (s : List Char) : Bool :=
  unitTest (s.dropWhile Char.isWhitespace)

/-- One match attempt of `(\d+(?:\.\d+)?)\s*UNIT` (or `(\d+)\s*UNIT` when
`allowFrac` is false) at the head of `s`; returns the numeric group. -/
def matchAt (allowFrac : Bool) (unitTest : List Char → Bool) (s : List Char) :
    Option ℚ :=
  let ds := s.takeWhile Char.isDigit
  if ds.isEmpty then none
  else
    let r := s.drop ds.length
    let withFrac : Option ℚ :=
      if allowFrac then
        match r with
        | '.' :: r2 =>
          let fs := r2.takeWhile Char.isDigit
          if fs.isEmpty then none
          else if tryUnit unitTest (r2.drop fs.length) then
            some (numValue ds fs)
          else none
        | _ => none
      else none
    match withFrac with
    | some v => some v
    | none => if tryUnit unitTest r then some (numValue ds []) else none

/-- `re.search`: try a match at every position, leftmost first. -/
def searchNum (allowFrac : Bool) (unitTest : List Char → Bool) :
    List Char → Option ℚ
  | [] => none
  | s@(_ :: rest) =>
    match matchAt allowFrac unitTest s with
    | some v => some v
    | none => searchNum allowFrac unitTest rest

/-- The alternation `小时|h|hr|hrs` (a match of `h` subsumes `hr`, `hrs`). -/
def hourUnit (s : List Char) : Bool :=
  startsWith ['小', '时'] s ||
    (match s with
     | c :: _ => c == 'h' || c == 'H'
     | [] => false)

/-- The day unit `天`. -/
def dayUnit (s : List Char) : Bool := startsWith ['天'] s

/-- The alternation `分钟|min|mins` (a match of `min` subsumes `mins`). -/
def minUnit (s : List Char) : Bool :=
  startsWith ['分', '钟'] s || startsWithCI [('m', 'M'), ('i', 'I'), ('n', 'N')] s

/-- `DifficultyEstimator._parse_duration`. -/
def parse_duration (text : String) : Option ℚ :=
  if text.data.isEmpty then none
  else
    let t := stripList text.data
    if containsSub ['半', '天'] t then some 4
    else if containsSub ['全', '天'] t || containsSub ['全', '日'] t then some 8
    else
      match searchNum true hourUnit t with
      | some h => some h
      | none =>
        match searchNum true dayUnit t with
        | some d => some (d * 8)
        | none =>
          match searchNum false minUnit t with
          | some m => some (m / 60)
          | none => none

/-- The `typical_stay_map` lookup table. -/
def typicalStayHours (s : String) : Option ℚ :=
  if s = "30分钟" then some (1/2)
  else if s = "1小时" then some 1
  else if s = "2小时" then some 2
  else if s = "半天" then some 4
  else if s = "全天" then some 8
  else none

/-- `DifficultyEstimator._infer_distance_km`. -/
def infer_distance_km (input : InputData) : Option ℚ :=
  let hours0 : Option ℚ :=
    match input.visitDuration with
    | some vd => if vd = "" then none else parse_duration vd
    | none => none
  let hours1 : Option ℚ :=
    match hours0 with
    | some h => some h
    | none =>
      match input.typicalStay with
      | some ts => if ts = "" then none else typicalStayHours ts
      | none => none
  match hours1 with
  | none => none
  | some hours =>
    let access := upperStr (input.accessType.getD "")
    let category := upperStr (input.category.getD "")
    let pace : ℚ :=
      if access = "WALKING" then 4
      else if access = "HIKING" then 7/2
      else if access = "VEHICLE" then 30
      else if access = "CABLE_CAR" then 5
      else if category = "ATTRACTION" then 3
      else if category = "RESTAURANT" then 1/2
      else if category = "HOTEL" then 0
      else 7/2
    let dist := hours * pace
    let dist2 :=
      if category = "RESTAURANT" ∨ category = "HOTEL" then min dist 3
      else min dist 15
    some (max (1/5) dist2)

/-- `DifficultyEstimator._default_label_by_category`. -/
def default_label_by_category (category : Option String) : DifficultyLabel :=
  match category with
  | none => DifficultyLabel.MODERATE
  | some c =>
    if c = "" then DifficultyLabel.MODERATE
    else
      let cu := upperStr c
      if cu = "RESTAURANT" ∨ cu = "HOTEL" ∨ cu = "SHOPPING" then
        DifficultyLabel.EASY
      else if cu = "ATTRACTION" then DifficultyLabel.MODERATE
      else DifficultyLabel.MODERATE

/-- The anchor table `ELEVATION_ANCHORS`. -/
def ELEVATION_ANCHORS : List (ℚ × ℚ) :=
  [(1500, 1), (2500, 21/20), (3000, 11/10), (3500, 6/5), (4000, 13/10),
   (4500, 29/20), (5000, 8/5), (5500, 9/5), (6000, 21/10), (7000, 5/2)]

/-- The interpolation loop over adjacent anchor pairs. -/
def interpAnchors : List (ℚ × ℚ) → ℚ → ℚ
  | (h1, k1) :: (h2, k2) :: rest, e =>
    if h1 ≤ e ∧ e < h2 then k1 + (e - h1) / (h2 - h1) * (k2 - k1)
    else interpAnchors ((h2, k2) :: rest) e
  | _, _ => 1

/-- `DifficultyEstimator._get_elevation_multiplier`. -/
def get_elevation_multiplier (elevation_m : Option ℚ) : ℚ :=
  match elevation_m with
  | none => 1
  | some e =>
    if e < 1500 then 1
    else if e ≥ 7000 then 5/2
    else interpAnchors ELEVATION_ANCHORS e

/-- Line 119 of the source: `elevation_m = max_elev_m or
input_data.get('elevationMeters')` — a truthiness choice, so `0.0` falls
through to `elevationMeters`. -/
def pickElev (max_elev_m elevationMeters : Option ℚ) : Option ℚ :=
  match max_elev_m with
  | some v => if v = 0 then elevationMeters else some v
  | none => elevationMeters

/-- `DifficultyEstimator._needs_acclimatization_penalty`. -/
def needs_acclimatization_penalty (input : InputData) : Bool :=
  if input.hasAcclimatization then false
  else
    match input.avgSleepElevation with
    | some a => if a ≥ 2500 then false else true
    | none => true

/-- `DifficultyEstimator._has_long_exposure`; note that the caller passes the
original `distance_km` argument, not the inferred distance. -/
def has_long_exposure (input : InputData) (distance_km : Option ℚ) : Bool :=
  match input.exposureHours with
  | some e => decide (e > 8)
  | none =>
    match distance_km with
    | some d => decide (d / (7/2) > 8)
    | none => false

/-- `DifficultyEstimator._has_extreme_cold`. -/
def has_extreme_cold (input : InputData) : Bool :=
  match input.feelsLikeTemp with
  | some t => if t < -10 then decide (input.coldDurationHours > 3) else false
  | none => false

/-- `DifficultyEstimator._has_heavy_load`. -/
def has_heavy_load (input : InputData) : Bool :=
  match input.loadWeightKg with
  | some w => decide (w > 12)
  | none => false

/-- `DifficultyEstimator._is_high_latitude`. -/
def is_high_latitude (latitude : Option ℚ) : Bool :=
  match latitude with
  | some l => decide (|l| ≥ 60)
  | none => false

/-- `DifficultyEstimator._bump_one_level`. -/
def bump_one_level : DifficultyLabel → DifficultyLabel
  | .EASY => .MODERATE
  | .MODERATE => .HARD
  | .HARD => .EXTREME
  | .EXTREME => .EXTREME

/-- Threshold classification of the corrected intensity. -/
def classifyS (S : ℚ) : DifficultyLabel :=
  if S ≤ 8 then DifficultyLabel.EASY
  else if S ≤ 16 then DifficultyLabel.MODERATE
  else if S ≤ 30 then DifficultyLabel.HARD
  else DifficultyLabel.EXTREME

/-- The `accessType` correction: vehicle or cable car forces the label to
EASY (the Python comparison `label.value == DifficultyLabel.EASY` on the
string enum is an equality test with EASY). -/
def applyAccess (access : String) (label : DifficultyLabel)
    (notes : List String) : DifficultyLabel × List String :=
  if access = "VEHICLE" ∨ access = "CABLE_CAR" then
    if label = DifficultyLabel.EASY then (label, notes)
    else (DifficultyLabel.EASY,
      notes ++ ["accessType: vehicle/cable_car → at least EASY"])
  else (label, notes)

/-- The `subCategory` correction: glacier or volcano raises EASY to
MODERATE. -/
def applySubCategory (sub : String) (label : DifficultyLabel)
    (notes : List String) : DifficultyLabel × List String :=
  if sub = "glacier" ∨ sub = "volcano" then
    if label = DifficultyLabel.EASY then
      (DifficultyLabel.MODERATE,
       notes ++ ["subCategory: " ++ sub ++ " → at least MODERATE"])
    else (label, notes)
  else (label, notes)

/-- The triggered optional risk corrections, in source order, each paired
with its trace note. -/
def optCorrections (input : InputData) (distance_km : Option ℚ) :
    List (ℚ × String) :=
  (if needs_acclimatization_penalty input then
     [((11 : ℚ)/10, "lack acclimatization: ×1.10")] else []) ++
  (if has_long_exposure input distance_km then
     [((21 : ℚ)/20, "long exposure (>8h): ×1.05")] else []) ++
  (if has_extreme_cold input then
     [((21 : ℚ)/20, "extreme cold (<-10°C >3h): ×1.05")] else []) ++
  (if has_heavy_load input then
     [((21 : ℚ)/20, "heavy load (>12kg): ×1.05")] else [])

/-- The main scoring path of `estimate_difficulty` (lines 112 to 204 of the
source): everything after the distance has been resolved to `D`.
`distance_km` is the original argument (used by the exposure inference),
`E` the resolved gain. -/
def scoreRoute (input : InputData) (D E : ℚ)
    (distance_km max_elev_m slope_avg : Option ℚ) :
    DifficultyLabel × ℚ × List String :=
  let base_S_km := D + E / 100
  let altitude_multiplier :=
    get_elevation_multiplier (pickElev max_elev_m input.elevationMeters)
  let opt := optCorrections input distance_km
  let total_multiplier := opt.foldl (fun a p => a * p.1) altitude_multiplier
  let altNotes :=
    if altitude_multiplier > 1 then ["altitude: ×" ++ fmt2 altitude_multiplier]
    else []
  let capped := total_multiplier > 3
  let S0 := if capped then base_S_km * 3 else base_S_km * total_multiplier
  let notes0 := altNotes ++ opt.map Prod.snd ++
    (if capped then ["total multiplier capped at " ++ fmt2 3] else [])
  let hiLat := is_high_latitude input.latitude
  let S1 := if hiLat then S0 * (6/5) else S0
  let notes1 := notes0 ++
    (if hiLat then ["high latitude (|lat|≥60.0°): ×1.2"] else [])
  let label0 := classifyS S1
  let slopeEff : Option ℚ :=
    match slope_avg with
    | some s => some s
    | none => if 0 < D ∧ 0 < E then some (E / (D * 1000)) else none
  let doBump : Bool :=
    match slopeEff with
    | some s => decide (¬ s = 0 ∧ 3/20 ≤ s)
    | none => false
  let label1 := if doBump then bump_one_level label0 else label0
  let notes2 := notes1 ++
    (if doBump then ["slope: bump one level (≥15.0%)"] else [])
  let p2 := applyAccess (upperStr (input.accessType.getD "")) label1 notes2
  let p3 := applySubCategory (lowerStr (input.subCategory.getD "")) p2.1 p2.2
  (p3.1, round2 S1, p3.2)

/-- `DifficultyEstimator.estimate_difficulty`. -/
def estimate_difficulty (input : InputData)
    (distance_km gain_m max_elev_m slope_avg : Option ℚ) :
    DifficultyLabel × ℚ × List String :=
  match trailOverride input.trailDifficulty with
  | some label => (label, 0, ["use: trailDifficulty"])
  | none =>
    match distance_km with
    | some D => scoreRoute input D (gain_m.getD 0) distance_km max_elev_m slope_avg
    | none =>
      match infer_distance_km input with
      | some D => scoreRoute input D (gain_m.getD 0) distance_km max_elev_m slope_avg
      | none =>
        (default_label_by_category input.category, 0,
         ["fallback: category default"])

/-! ## Polyline codec (`src/tools/end2end_difficulty_with_geojson.py`) -/

/-- A coordinate `(lat, lon)` in degrees. -/
abbrev Coord := ℚ × ℚ

/-- Python `~(v << 1) if v < 0 else v << 1`: zig-zag encoding of a signed
delta to a nonnegative integer. -/
def zigzag (v : ℤ) : ℕ := if v < 0 then (-(v * 2) - 1).toNat else (v * 2).toNat

/-- The chunk loop of `encode_value`: emit 5-bit groups with continuation
bit `0x20`, offset by 63. -/
def chunkGo (v : ℕ) : List Char :=
  if h : 32 ≤ v then
    Char.ofNat ((32 ||| (v % 32)) + 63) :: chunkGo (v / 32)
  else [Char.ofNat (v + 63)]
termination_by v
decreasing_by exact Nat.div_lt_self (by omega) (by omega)

/-- `encode_value` as written in the source: it is handed an already scaled
integer delta, and nonetheless multiplies by `1e5` and rounds again before
zig-zag encoding. -/
def encode_value (value : ℚ) : List Char :=
  chunkGo (zigzag (rndHalfEven (value * 100000)))

/-- The encoding loop: deltas against the previous raw coordinate, scaled by
`1e5` and rounded, then passed to `encode_value`. -/
def encodeGo : List Coord → ℚ → ℚ → List Char
  | [], _, _ => []
  | (lat, lon) :: rest, prevLat, prevLon =>
    let dlat : ℤ := rndHalfEven ((lat - prevLat) * 100000)
    let dlon : ℤ := rndHalfEven ((lon - prevLon) * 100000)
    encode_value (dlat : ℚ) ++ encode_value (dlon : ℚ) ++ encodeGo rest lat lon

/-- `encode_polyline`. -/
def encode_polyline (coords : List Coord) : List Char :=
  if coords.isEmpty then [] else encodeGo coords 0 0

/-- The inner while loop of `decode_polyline`: read one varint value
(5-bit groups, continuation bit `0x20`).  Running out of characters
mid-value is an index error in Python, `none` here. -/
def readValue : List Char → ℕ → ℕ → Option (ℕ × List Char)
  | [], _, _ => none
  | c :: rest, shift, result =>
    let byte : ℤ := (c.toNat : ℤ) - 63
    let result2 := result ||| ((byte.emod 32).toNat <<< shift)
    if byte < 32 then some (result2, rest)
    else readValue rest (shift + 5) result2

/-- Python `~(r >> 1) if (r & 1) else (r >> 1)`: zig-zag decoding. -/
def unzig (r : ℕ) : ℤ :=
  if r % 2 = 1 then -((r / 2 : ℕ) : ℤ) - 1 else ((r / 2 : ℕ) : ℤ)

/-- The outer while loop of `decode_polyline`; each iteration reads one
latitude and one longitude delta and appends the accumulated absolute
position divided by `1e5`.  Each iteration consumes at least two characters,
so the character count bounds the iteration count and doubles as fuel. -/
def decodeGo : ℕ → List Char → ℤ → ℤ → Option (List Coord)
  | _, [], _, _ => some []
  | 0, _ :: _, _, _ => none
  | fuel + 1, s@(_ :: _), lat, lon =>
    match readValue s 0 0 with
    | none => none
    | some (r1, s1) =>
      match readValue s1 0 0 with
      | none => none
      | some (r2, s2) =>
        let lat2 := lat + unzig r1
        let lon2 := lon + unzig r2
        match decodeGo fuel s2 lat2 lon2 with
        | none => none
        | some coords => some (((lat2 : ℚ) / 100000, (lon2 : ℚ) / 100000) :: coords)

/-- `decode_polyline`. -/
def decode_polyline (s : List Char) : Option (List Coord) :=
  decodeGo s.length s 0 0

/-! ## Equidistant resampler (`resample_path`) -/

/-- The inner while loop of `resample_path`: while the accumulated distance
plus the current segment length reaches the step, interpolate a point at the
fractional position, emit it, and continue within the segment.  Returns the
emitted points and the final `(carry, acc, seg)` state.  `d` is the distance
function (haversine in the source) and `fuel` bounds the iterations. -/
def innerLoop (d : Coord → Coord → ℚ) (stepm : ℚ) (nxt : Coord) :
    ℕ → Coord → ℚ → ℚ → List Coord × Coord × ℚ × ℚ
  | 0, carry, acc, seg => ([], carry, acc, seg)
  | fuel + 1, carry, acc, seg =>
    if acc + seg ≥ stepm then
      let t := if seg > 0 then (stepm - acc) / seg else 1
      let p : Coord := (carry.1 + t * (nxt.1 - carry.1),
                        carry.2 + t * (nxt.2 - carry.2))
      let seg2 := d p nxt
      let r := innerLoop d stepm nxt fuel p 0 seg2
      (p :: r.1, r.2)
    else ([], carry, acc, seg)

/-- The outer for loop of `resample_path` over `coords[1:]`: after the inner
loop the accumulator gains the remaining segment length and the cursor moves
to the segment end. -/
def outerLoop (d : Coord → Coord → ℚ) (stepm : ℚ) (fuel : ℕ) :
    List Coord → Coord → ℚ → List Coord
  | [], _, _ => []
  | nxt :: rest, carry, acc =>
    let seg := d carry nxt
    let r := innerLoop d stepm nxt fuel carry acc seg
    r.1 ++ outerLoop d stepm fuel rest nxt (r.2.2.1 + r.2.2.2)

/-- `resample_path`: fewer than two coordinates are returned unchanged; the
first raw coordinate is always emitted; the last raw coordinate is appended
when the final emitted point differs from it. -/
def resample_path (d : Coord → Coord → ℚ) (fuel : ℕ)
    (coords : List Coord) (stepm : ℚ) : List Coord :=
  match coords with
  | [] => []
  | [c] => [c]
  | c0 :: c1 :: rest =>
    let resampled := c0 :: outerLoop d stepm fuel (c1 :: rest) c0 0
    let lastRaw := (c1 :: rest).getLastD c1
    if resampled.getLastD c0 ≠ lastRaw then resampled ++ [lastRaw]
    else resampled

/-! ## Terrain-RGB tile sampling -/

/-- A decoded raster tile: dimensions and a pixel accessor returning RGB. -/
structure TerrainTile where
  width : ℕ
  height : ℕ
  pix : ℕ → ℕ → ℕ × ℕ × ℕ

/-- `elev_from_terrain_rgb`: `-10000 + (R*256*256 + G*256 + B) * 0.1`. -/
def elev_from_terrain_rgb (r g b : ℕ) : ℚ :=
  -10000 + ((r * 256 * 256 + g * 256 + b : ℕ) : ℚ) * (1/10)

/-- The elevation of one pixel of a tile. -/
def elevAtPix (img : TerrainTile) (x y : ℤ) : ℚ :=
  let p := img.pix x.toNat y.toNat
  elev_from_terrain_rgb p.1 p.2.1 p.2.2

/-- `bilinear_sample`: clamp the position to the tile bounds, split it into
an integer base pixel and fractional offsets, and blend the 2×2 pixel
neighborhood with those offsets. -/
def bilinear_sample (img : TerrainTile) (px py : ℚ) : ℚ :=
  let pxc := max 0 (min px ((img.width : ℚ) - 1))
  let pyc := max 0 (min py ((img.height : ℚ) - 1))
  let x0 : ℤ := pyInt pxc
  let y0 : ℤ := pyInt pyc
  let x1 : ℤ := min (x0 + 1) ((img.width : ℤ) - 1)
  let y1 : ℤ := min (y0 + 1) ((img.height : ℤ) - 1)
  let fx := pxc - (x0 : ℚ)
  let fy := pyc - (y0 : ℚ)
  let e00 := elevAtPix img x0 y0
  let e10 := elevAtPix img x1 y0
  let e01 := elevAtPix img x0 y1
  let e11 := elevAtPix img x1 y1
  let e0 := e00 * (1 - fx) + e10 * fx
  let e1 := e01 * (1 - fx) + e11 * fx
  e0 * (1 - fy) + e1 * fy

/-- The final pixel computation of `latlon_to_tile`:
`px = int((lon_in_tile / lon_per_tile) * 512)` and likewise for `py`.
`lonRatio` and `latRatio` are the real-valued sub-tile position ratios the
Web-Mercator projection produces; the truncation to integers is the step this
embedding captures exactly. -/
def latlon_to_tile_pixel (lonRatio latRatio : ℚ) : ℤ × ℤ :=
  (pyInt (lonRatio * 512), pyInt (latRatio * 512))

/-- The per-coordinate sampling step of `sample_elevation_mapbox`: it calls
`bilinear_sample` with the integer pixel coordinates returned by
`latlon_to_tile`. -/
def sample_coord_elevation (img : TerrainTile) (lonRatio latRatio : ℚ) : ℚ :=
  let p := latlon_to_tile_pixel lonRatio latRatio
  bilinear_sample img (p.1 : ℚ) (p.2 : ℚ)

/-- Modelled from the claim of the spec (section 4.3): the elevation of a
coordinate is the bilinear interpolation over the 2×2 pixel neighborhood
surrounding its sub-pixel position `(ratio * 512)`, clamped to the tile
bounds — that is, `bilinear_sample` applied to the fractional position
itself, without truncation. -/
def subpixel_bilinear_spec (img : TerrainTile) (lonRatio latRatio : ℚ) : ℚ :=
  bilinear_sample img (lonRatio * 512) (latRatio * 512)

/-! ## Route metrics (`moving_average`, `calc_metrics`) -/

/-- The list-comprehension body of `moving_average`: for each index the
average over the centered window, shrunk at the boundaries
(`start = max(0, i - win//2)`, `stop = min(n, i + win//2 + 1)`). -/
def smoothWindows (win : ℕ) (values : List ℚ) : List ℚ :=
  (List.range values.length).map fun i =>
    let start := i - win / 2
    let stop := min values.length (i + win / 2 + 1)
    ((values.drop start).take (stop - start)).sum / ((stop - start : ℕ) : ℚ)

/-- `moving_average`: series shorter than the window are returned
unchanged. -/
def moving_average (values : List ℚ) (win : ℕ) : List ℚ :=
  if values.length < win then values else smoothWindows win values

/-- The gain loop of `calc_metrics`: sum the consecutive deltas strictly
greater than 3. -/
def gainSum : List ℚ → ℚ
  | [] => 0
  | [_] => 0
  | a :: b :: rest => (if b - a > 3 then b - a else 0) + gainSum (b :: rest)

/-- The elevation-gain computation of `calc_metrics`: denoise with
`moving_average` at window 5, then sum the deltas above the 3 m threshold. -/
def elevation_gain (elevations : List ℚ) : ℚ :=
  gainSum (moving_average elevations 5)

/-- Modelled from the claim of the spec (section 4.4): the denoising always
applies the centered window-5 moving average with shrinking boundary
windows, with no short-series exemption. -/
def elevation_gain_spec (elevations : List ℚ) : ℚ :=
  gainSum (smoothWindows 5 elevations)

/-- The concrete 2×2 terrain tile used in the tile-sampling theorems; its
four pixels decode to the elevations −10000, −9990, −9980 and −9970. -/
def cImg : TerrainTile :=
  { width := 2, height := 2,
    pix := fun x y =>
      if x = 0 ∧ y = 0 then (0, 0, 0)
      else if x = 1 ∧ y = 0 then (0, 0, 100)
      else if x = 0 ∧ y = 1 then (0, 0, 200)
      else (0, 1, 44) }

/-- The input of the cap-exceedance scenario: every optional correction
triggers and the latitude is 60°. -/
def capInput : InputData :=
  { exposureHours := some 9, feelsLikeTemp := some (-15),
    coldDurationHours := 4, loadWeightKg := some 13, latitude := some 60 }

/-! ## Helper lemmas -/

lemma applyAccess_fst_easy (access : String) (l : DifficultyLabel)
    (n : List String) (h : access = "VEHICLE" ∨ access = "CABLE_CAR") :
    (applyAccess access l n).1 = DifficultyLabel.EASY := by
  unfold applyAccess
  rw [if_pos h]
  split_ifs with h2
  · simpa using h2
  · rfl

lemma applySubCategory_fst (sub : String) (l : DifficultyLabel)
    (n : List String) (h1 : sub ≠ "glacier") (h2 : sub ≠ "volcano") :
    (applySubCategory sub l n).1 = l := by
  unfold applySubCategory
  rw [if_neg (by rintro (h | h) <;> simp_all)]

lemma foldl_mul_prod (a : ℚ) (l : List (ℚ × String)) :
    l.foldl (fun x p => x * p.1) a = a * (l.map Prod.fst).prod := by
  induction l generalizing a with
  | nil => simp
  | cons p t ih => simp [List.foldl, ih, mul_assoc]

lemma optCorrections_prod (input : InputData) (dk : Option ℚ) :
    ((optCorrections input dk).map Prod.fst).prod =
      (if needs_acclimatization_penalty input then (11 : ℚ)/10 else 1) *
      ((if has_long_exposure input dk then (21 : ℚ)/20 else 1) *
       ((if has_extreme_cold input then (21 : ℚ)/20 else 1) *
        (if has_heavy_load input then (21 : ℚ)/20 else 1))) := by
  unfold optCorrections
  by_cases h1 : needs_acclimatization_penalty input <;>
  by_cases h2 : has_long_exposure input dk <;>
  by_cases h3 : has_extreme_cold input <;>
  by_cases h4 : has_heavy_load input <;>
  simp [h1, h2, h3, h4]

lemma pickElev_some_zero (e : Option ℚ) :
    pickElev (some 0) e = pickElev none e := by
  simp [pickElev]

lemma scoreRoute_some_zero (input : InputData) (D E : ℚ)
    (dk sa : Option ℚ) :
    scoreRoute input D E dk (some 0) sa = scoreRoute input D E dk none sa := by
  unfold scoreRoute
  rw [pickElev_some_zero]

lemma pyInt_intCast (n : ℤ) : pyInt ((n : ℤ) : ℚ) = n := by
  unfold pyInt
  split_ifs with h
  · rw [show -((n : ℤ) : ℚ) = (((-n : ℤ) : ℤ) : ℚ) by push_cast; ring,
      Int.floor_intCast]
    ring
  · exact Int.floor_intCast n

lemma gainSum_nonneg : ∀ l : List ℚ, 0 ≤ gainSum l
  | [] => le_refl 0
  | [_] => le_refl 0
  | a :: b :: t => by
    have h1 : 0 ≤ (if b - a > 3 then b - a else 0) := by
      split_ifs with h
      · linarith
      · exact le_refl 0
    have h2 := gainSum_nonneg (b :: t)
    simpa [gainSum] using add_nonneg h1 h2

lemma getLast?_cons_getLastD {α : Type} (a : α) (l : List α) :
    (a :: l).getLast? = some (l.getLastD a) := by
  induction l generalizing a with
  | nil => rfl
  | cons b t ih => rw [List.getLast?_cons_cons, ih b, List.getLastD_cons]

lemma chunkGo_200000 : chunkGo 200000 = ['_', 'i', 'b', 'E'] := by
  rw [chunkGo]; norm_num +decide
  rw [chunkGo]; norm_num +decide
  rw [chunkGo]; norm_num +decide
  rw [chunkGo]; norm_num +decide

lemma chunkGo_0 : chunkGo 0 = ['?'] := by
  rw [chunkGo]; norm_num +decide

lemma encode_unit_example :
    encode_polyline [(1/100000, 0)] = ['_', 'i', 'b', 'E', '?'] := by
  norm_num +decide [encode_polyline, encodeGo, encode_value, zigzag,
    rndHalfEven, chunkGo_200000, chunkGo_0,
    show ((200000 : ℤ).toNat) = 200000 from by decide,
    show ((0 : ℤ).toNat) = 0 from by decide]

lemma decode_unit_example :
    decode_polyline ['_', 'i', 'b', 'E', '?'] = some [(1, 0)] := by
  norm_num +decide [decode_polyline, decodeGo, readValue, unzig,
    show ('_').toNat = 95 from by decide, show ('i').toNat = 105 from by decide,
    show ('b').toNat = 98 from by decide, show ('E').toNat = 69 from by decide,
    show ('?').toNat = 63 from by decide,
    show ((10 : ℤ).toNat) = 10 from by decide,
    show ((3 : ℤ).toNat) = 3 from by decide,
    show ((6 : ℤ).toNat) = 6 from by decide,
    show ((0 : ℤ).toNat) = 0 from by decide,
    show ((10 : ℕ) <<< 5 ||| (3 : ℕ) <<< 10 ||| (6 : ℕ) <<< 15) = 200000 from
      by decide]

/-! ## Claim theorems -/

/-- Claim C1, counterexample: with `distance_km = 10.8`, `gain_m = 720`,
`slope_avg = 0.067` and an empty attribute mapping, the returned intensity is
not 18.0 — the acclimatization penalty fires (no acclimatization flag and no
sleep elevation are present), so S_km = 18.0 × 1.10 = 19.8. -/
theorem c1_s_km_not_18 :
    (estimate_difficulty {} (some (54/5)) (some 720) none
      (some (67/1000))).2.1 ≠ 18 := by
  norm_num +decide [estimate_difficulty, trailOverride, scoreRoute,
    optCorrections, pickElev, get_elevation_multiplier, classifyS, applyAccess,
    applySubCategory, upperStr, lowerStr, needs_acclimatization_penalty,
    has_long_exposure, has_extreme_cold, has_heavy_load, is_high_latitude,
    round2, rndHalfEven, List.foldl]

/-- Claim C1 (amended): for inputs `distance_km = 10.8`, `gain_m = 720`,
`slope_avg = 0.067`, with no elevation, no latitude, and no overrides,
`estimate_difficulty` computes base intensity 10.8 + 7.2 = 18.0, applies no
altitude or latitude correction and no slope bump (0.067 < 0.15), but does
apply the lack-of-acclimatization correction ×1.10 (neither an
acclimatization flag nor a sleep elevation is present), returning
label = HARD with S_km = 19.8 and that single correction in the trace. -/
theorem c1_amended_scenario :
    estimate_difficulty {} (some (54/5)) (some 720) none (some (67/1000)) =
      (DifficultyLabel.HARD, 99/5, ["lack acclimatization: ×1.10"]) := by
  norm_num +decide [estimate_difficulty, trailOverride, scoreRoute,
    optCorrections, pickElev, get_elevation_multiplier, classifyS, applyAccess,
    applySubCategory, upperStr, lowerStr, needs_acclimatization_penalty,
    has_long_exposure, has_extreme_cold, has_heavy_load, is_high_latitude,
    round2, rndHalfEven, List.foldl]

/-- Claim C2: if `trailDifficulty` is one of the four labels, the estimator
returns that label immediately with intensity 0.0 and the trace note
`use: trailDifficulty`, regardless of every other input; in particular
`trailDifficulty = HARD` with `distance_km = 5`, `gain_m = 100` returns
(HARD, 0.0). -/
theorem c2_trail_difficulty_override :
    (∀ (input : InputData) (distance_km gain_m max_elev_m slope_avg : Option ℚ)
       (lab : DifficultyLabel),
       input.trailDifficulty = some (labelToString lab) →
       estimate_difficulty input distance_km gain_m max_elev_m slope_avg =
         (lab, 0, ["use: trailDifficulty"])) ∧
    estimate_difficulty { trailDifficulty := some ("HARD") }
        (some 5) (some 100) none none =
      (DifficultyLabel.HARD, 0, ["use: trailDifficulty"]) := by
  constructor
  · intro input dk gm me sa lab h
    have h2 : trailOverride input.trailDifficulty = some lab := by
      rw [h]; cases lab <;> decide
    simp [estimate_difficulty, h2]
  · norm_num +decide [estimate_difficulty, trailOverride, labelOfString,
      upperStr]

/-- Claim C2, witness: the override theorem applied at a concrete input with
`trailDifficulty = MODERATE`. -/
theorem c2_override_witness :
    ({ trailDifficulty := some ("MODERATE") } : InputData).trailDifficulty =
      some (labelToString DifficultyLabel.MODERATE) ∧
    estimate_difficulty { trailDifficulty := some ("MODERATE") }
        none none none none =
      (DifficultyLabel.MODERATE, 0, ["use: trailDifficulty"]) :=
  ⟨rfl, c2_trail_difficulty_override.1 _ none none none none
    DifficultyLabel.MODERATE rfl⟩

/-- Claim C5, counterexample: the parser does not recognize the literal
English phrases; `half day`, `full day` and `2 days` all parse to nothing,
while the claim says the first two parse to 4 and 8 hours and that English
day phrasing is recognized. -/
theorem c5_english_phrases_not_recognized :
    parse_duration ("half day") = none ∧
    parse_duration ("full day") = none ∧
    parse_duration ("2 days") = none := by
  refine ⟨?_, ?_, ?_⟩ <;>
  norm_num +decide [parse_duration, stripList, searchNum, matchAt, tryUnit,
    hourUnit, dayUnit, minUnit, startsWith, startsWithCI, numValue, digitsVal,
    digitVal, List.foldl]

/-- Claim C5 (amended): the parser recognizes the literal Chinese whole-day
phrases 半天 (half day) = 4 hours and 全天/全日 (full day) = 8 hours, hour
phrasing in Chinese and English (小时, h, hr, hrs), day phrasing in Chinese
only (天, one day = 8 hours), and minute phrasing in Chinese and English
(分钟, min, mins); the whole-day phrases are evaluated before the
numeric-unit patterns, so any text containing 半天 parses to 4 hours no
matter what numeric phrases it also contains. -/
theorem c5_amended_duration_patterns :
    (parse_duration ("半天") = some 4 ∧ parse_duration ("全天") = some 8 ∧
     parse_duration ("全日") = some 8 ∧ parse_duration ("2小时") = some 2 ∧
     parse_duration ("3h") = some 3 ∧ parse_duration ("1.5hr") = some (3/2) ∧
     parse_duration ("2天") = some 16 ∧
     parse_duration ("30分钟") = some (1/2) ∧
     parse_duration ("45min") = some (3/4)) ∧
    (∀ t : String, containsSub ['半', '天'] (stripList t.data) = true →
      parse_duration t = some 4) := by
  constructor
  · refine ⟨?_, ?_, ?_, ?_, ?_, ?_, ?_, ?_, ?_⟩ <;>
    norm_num +decide [parse_duration, stripList, searchNum, matchAt, tryUnit,
      hourUnit, dayUnit, minUnit, startsWith, startsWithCI, numValue,
      digitsVal, digitVal, List.foldl]
  · intro t h
    rcases e : t.data with _ | ⟨c, cs⟩
    · rw [e] at h
      exact absurd h (by decide)
    · unfold parse_duration
      rw [e] at h ⊢
      simp [h]

/-- Claim C5, witness: the precedence statement applied to the concrete text
半天2小时, which contains both the whole-day phrase and an hour phrase and
parses to 4 hours. -/
theorem c5_duration_witness :
    containsSub ['半', '天'] (stripList ("半天2小时").data) = true ∧
    parse_duration ("半天2小时") = some 4 :=
  ⟨by decide, c5_amended_duration_patterns.2 ("半天2小时") (by decide)⟩

/-- Claim C7 (code bug): the polyline round-trip fails even for coordinates
already rounded to 5 decimal places, because `encode_value` multiplies the
already scaled integer delta by 1e5 a second time; decoding the encoding of
[(0.00001, 0.0)] yields [(1.0, 0.0)], off by a factor of 100000. -/
theorem c7_polyline_double_scaling_bug :
    decode_polyline (encode_polyline [((1 : ℚ)/100000, 0)]) =
      some [((1 : ℚ), 0)] ∧
    ((1 : ℚ), (0 : ℚ)) ≠ ((1 : ℚ)/100000, (0 : ℚ)) := by
  constructor
  · rw [encode_unit_example]
    exact decode_unit_example
  · norm_num

/-- Claim C3: with vehicle or cable-car access the access-type override
forces the label to EASY regardless of the computed label — even when this
downgrades a higher one — whenever the steps the spec orders around it do not
take over (no explicit `trailDifficulty` override, a resolved distance, and
no glacier/volcano sub-category floor, which the spec applies afterwards).
In particular `accessType = VEHICLE` with `distance_km = 50`,
`gain_m = 2000` — which otherwise classifies as EXTREME — returns EASY. -/
theorem c3_access_type_forces_easy :
    (∀ (input : InputData) (D : ℚ) (gain_m max_elev_m slope_avg : Option ℚ),
       input.trailDifficulty = none →
       (upperStr (input.accessType.getD "") = "VEHICLE" ∨
        upperStr (input.accessType.getD "") = "CABLE_CAR") →
       lowerStr (input.subCategory.getD "") ≠ "glacier" →
       lowerStr (input.subCategory.getD "") ≠ "volcano" →
       (estimate_difficulty input (some D) gain_m max_elev_m slope_avg).1 =
         DifficultyLabel.EASY) ∧
    (estimate_difficulty {} (some 50) (some 2000) none none).1 =
      DifficultyLabel.EXTREME ∧
    (estimate_difficulty { accessType := some ("VEHICLE") } (some 50)
      (some 2000) none none).1 = DifficultyLabel.EASY := by
  refine ⟨?_, ?_, ?_⟩
  · intro input D gm me sa htd hacc hg hv
    have h1 : estimate_difficulty input (some D) gm me sa =
        scoreRoute input D (gm.getD 0) (some D) me sa := by
      simp [estimate_difficulty, htd, trailOverride]
    rw [h1]
    simp only [scoreRoute]
    rw [applySubCategory_fst _ _ _ hg hv, applyAccess_fst_easy _ _ _ hacc]
  · norm_num +decide [estimate_difficulty, trailOverride, scoreRoute,
      optCorrections, pickElev, get_elevation_multiplier, classifyS,
      applyAccess, applySubCategory, upperStr, lowerStr,
      needs_acclimatization_penalty, has_long_exposure, has_extreme_cold,
      has_heavy_load, is_high_latitude, List.foldl]
  · norm_num +decide [estimate_difficulty, trailOverride, scoreRoute,
      optCorrections, pickElev, get_elevation_multiplier, classifyS,
      applyAccess, applySubCategory, upperStr, lowerStr,
      needs_acclimatization_penalty, has_long_exposure, has_extreme_cold,
      has_heavy_load, is_high_latitude, List.foldl]

/-- Claim C3, witness: the override statement applied at the concrete
VEHICLE input of the spec scenario. -/
theorem c3_access_witness :
    (({ accessType := some ("VEHICLE") } : InputData).trailDifficulty = none ∧
     upperStr (({ accessType := some ("VEHICLE") } :
       InputData).accessType.getD "") = "VEHICLE") ∧
    (estimate_difficulty { accessType := some ("VEHICLE") } (some 50)
      (some 2000) none none).1 = DifficultyLabel.EASY :=
  ⟨⟨rfl, by decide⟩,
   c3_access_type_forces_easy.1 _ 50 (some 2000) none none rfl
     (Or.inl (by decide)) (by decide) (by decide)⟩

/-- Claim C4: the intensity returned by the scoring path is
`round2 (base × min(total, 3) × latitude-factor)`, where `total` is the
altitude multiplier times the product of the triggered optional multipliers
and the latitude factor 1.2 (applied when |latitude| ≥ 60°) multiplies after
the cap and is not bounded by it; at elevation 7000 m with all four optional
corrections and latitude 60° the result is S_km = 10 × 3 × 1.2 = 36, an
overall factor 3.6 > 3.0. -/
theorem c4_total_multiplier_cap :
    (∀ (input : InputData) (D E : ℚ) (dk me sa : Option ℚ),
       (scoreRoute input D E dk me sa).2.1 =
         round2 ((D + E / 100) *
           min (get_elevation_multiplier (pickElev me input.elevationMeters) *
             ((if needs_acclimatization_penalty input then (11 : ℚ)/10 else 1) *
              ((if has_long_exposure input dk then (21 : ℚ)/20 else 1) *
               ((if has_extreme_cold input then (21 : ℚ)/20 else 1) *
                (if has_heavy_load input then (21 : ℚ)/20 else 1))))) 3 *
           (if is_high_latitude input.latitude then 6/5 else 1))) ∧
    (estimate_difficulty capInput (some 10) (some 0) (some 7000) none).2.1 =
      36 ∧
    (estimate_difficulty capInput (some 10) (some 0) (some 7000) none).1 =
      DifficultyLabel.EXTREME ∧
    (36 : ℚ) = 10 * (18/5) ∧ (3 : ℚ) < 18/5 := by
  refine ⟨?_, ?_, ?_, by norm_num, by norm_num⟩
  · intro input D E dk me sa
    have h1 : (scoreRoute input D E dk me sa).2.1 =
        round2 (if is_high_latitude input.latitude then
          (if (optCorrections input dk).foldl (fun a p => a * p.1)
                (get_elevation_multiplier (pickElev me input.elevationMeters))
                > 3
           then (D + E / 100) * 3
           else (D + E / 100) * ((optCorrections input dk).foldl
                  (fun a p => a * p.1)
                  (get_elevation_multiplier
                    (pickElev me input.elevationMeters))))
            * (6/5)
        else
          (if (optCorrections input dk).foldl (fun a p => a * p.1)
                (get_elevation_multiplier (pickElev me input.elevationMeters))
                > 3
           then (D + E / 100) * 3
           else (D + E / 100) * ((optCorrections input dk).foldl
                  (fun a p => a * p.1)
                  (get_elevation_multiplier
                    (pickElev me input.elevationMeters))))) :=
      rfl
    rw [h1]
    rw [foldl_mul_prod, optCorrections_prod]
    congr 1
    set T := get_elevation_multiplier (pickElev me input.elevationMeters) *
      ((if needs_acclimatization_penalty input then (11 : ℚ)/10 else 1) *
       ((if has_long_exposure input dk then (21 : ℚ)/20 else 1) *
        ((if has_extreme_cold input then (21 : ℚ)/20 else 1) *
         (if has_heavy_load input then (21 : ℚ)/20 else 1)))) with hT
    rcases le_or_lt T 3 with hle | hgt
    · rw [min_eq_left hle, if_neg (not_lt.mpr hle)]
      split_ifs <;> ring
    · rw [min_eq_right hgt.le, if_pos hgt]
      split_ifs <;> ring
  · norm_num +decide [estimate_difficulty, trailOverride, scoreRoute, capInput,
      optCorrections, pickElev, get_elevation_multiplier, classifyS,
      applyAccess, applySubCategory, upperStr, lowerStr,
      needs_acclimatization_penalty, has_long_exposure, has_extreme_cold,
      has_heavy_load, is_high_latitude, round2, rndHalfEven, List.foldl]
  · norm_num +decide [estimate_difficulty, trailOverride, scoreRoute, capInput,
      optCorrections, pickElev, get_elevation_multiplier, classifyS,
      applyAccess, applySubCategory, upperStr, lowerStr,
      needs_acclimatization_penalty, has_long_exposure, has_extreme_cold,
      has_heavy_load, is_high_latitude, round2, rndHalfEven, List.foldl]

/-- Claim C6, counterexample: the raster backend truncates the sub-pixel
position to integers in `latlon_to_tile` before sampling, so a coordinate
whose true sub-pixel position is (0.5, 0.5) receives the corner pixel value
−10000 rather than the bilinear blend −9985 of its 2×2 neighborhood. -/
theorem c6_subpixel_truncation_counterexample :
    sample_coord_elevation cImg (1/1024) (1/1024) = -10000 ∧
    subpixel_bilinear_spec cImg (1/1024) (1/1024) = -9985 ∧
    sample_coord_elevation cImg (1/1024) (1/1024) ≠
      subpixel_bilinear_spec cImg (1/1024) (1/1024) := by
  refine ⟨?_, ?_, ?_⟩ <;>
  norm_num +decide [sample_coord_elevation, subpixel_bilinear_spec,
    latlon_to_tile_pixel, pyInt, bilinear_sample, elevAtPix,
    elev_from_terrain_rgb, cImg]

/-- Claim C6 (amended): `bilinear_sample` implements clamped bilinear
interpolation for fractional positions, but the pipeline hands it the
integer pixel coordinates produced by the `int()` truncation inside
`latlon_to_tile`; at integer positions the interpolation weights vanish, so
each coordinate receives exactly the single clamped pixel value at the
truncated position. -/
theorem c6_amended_integer_bilinear :
    ∀ (img : TerrainTile) (x y : ℤ), 1 ≤ img.width → 1 ≤ img.height →
      bilinear_sample img ((x : ℤ) : ℚ) ((y : ℤ) : ℚ) =
        elevAtPix img (max 0 (min x ((img.width : ℤ) - 1)))
          (max 0 (min y ((img.height : ℤ) - 1))) := by
  intro img x y hw hh
  have hcx : max 0 (min ((x : ℤ) : ℚ) ((img.width : ℚ) - 1)) =
      ((max 0 (min x ((img.width : ℤ) - 1)) : ℤ) : ℚ) := by
    push_cast
    rfl
  have hcy : max 0 (min ((y : ℤ) : ℚ) ((img.height : ℚ) - 1)) =
      ((max 0 (min y ((img.height : ℤ) - 1)) : ℤ) : ℚ) := by
    push_cast
    rfl
  simp only [bilinear_sample]
  rw [hcx, hcy, pyInt_intCast, pyInt_intCast, sub_self]
  ring_nf

/-- Claim C6, witness: the degenerate-sampling statement applied to the
concrete 2×2 tile at pixel position (1, 0). -/
theorem c6_bilinear_witness :
    1 ≤ cImg.width ∧
    bilinear_sample cImg ((1 : ℤ) : ℚ) ((0 : ℤ) : ℚ) =
      elevAtPix cImg (max 0 (min 1 ((cImg.width : ℤ) - 1)))
        (max 0 (min 0 ((cImg.height : ℤ) - 1))) :=
  ⟨by decide, c6_amended_integer_bilinear cImg 1 0 (by decide) (by decide)⟩

/-- Claim C8: for every distance function, every fuel, every input with at
least two coordinates and every positive step, the resampled output starts
with the input head and ends with the input last point; an input with fewer
than two coordinates is returned unchanged. -/
theorem c8_resample_endpoints :
    (∀ (d : Coord → Coord → ℚ) (fuel : ℕ) (coords : List Coord) (stepm : ℚ),
       2 ≤ coords.length → 0 < stepm →
       (resample_path d fuel coords stepm).head? = coords.head? ∧
       (resample_path d fuel coords stepm).getLast? = coords.getLast?) ∧
    (∀ (d : Coord → Coord → ℚ) (fuel : ℕ) (coords : List Coord) (stepm : ℚ),
       coords.length < 2 → resample_path d fuel coords stepm = coords) := by
  constructor
  · intro d fuel coords stepm hlen _hstep
    rcases coords with _ | ⟨c0, _ | ⟨c1, rest⟩⟩
    · simp at hlen
    · simp at hlen
    · simp only [resample_path]
      split_ifs with hne
      · refine ⟨rfl, ?_⟩
        rw [List.getLast?_concat, List.getLast?_cons_cons,
          getLast?_cons_getLastD, List.getLastD_cons]
      · have heq := not_not.mp hne
        refine ⟨rfl, ?_⟩
        rw [getLast?_cons_getLastD, List.getLast?_cons_cons,
          getLast?_cons_getLastD]
        rw [List.getLastD_cons] at heq
        rw [heq, List.getLastD_cons]
  · intro d fuel coords stepm h
    rcases coords with _ | ⟨c0, _ | ⟨c1, rest⟩⟩
    · rfl
    · rfl
    · simp at h
      omega

/-- Claim C8, witness: the endpoint invariant applied to a concrete
two-point path with a concrete distance function. -/
theorem c8_resample_witness :
    2 ≤ ([((0 : ℚ), (0 : ℚ)), (1, 1)] : List Coord).length ∧
    (resample_path (fun _ _ => 0) 5 [((0 : ℚ), (0 : ℚ)), (1, 1)] 1).head? =
      ([((0 : ℚ), (0 : ℚ)), (1, 1)] : List Coord).head? ∧
    (resample_path (fun _ _ => 0) 5 [((0 : ℚ), (0 : ℚ)), (1, 1)] 1).getLast? =
      ([((0 : ℚ), (0 : ℚ)), (1, 1)] : List Coord).getLast? :=
  ⟨by decide,
   c8_resample_endpoints.1 (fun _ _ => 0) 5 _ 1 (by decide) (by norm_num)⟩

/-- Claim C9, counterexample: for the four-sample series [0, 100, 0, 0] the
code skips denoising (`moving_average` returns series shorter than the
window unchanged) and reports a gain of 100, while the always-shrinking
window-5 average of the claim would give 25/3. -/
theorem c9_short_series_counterexample :
    elevation_gain [0, 100, 0, 0] = 100 ∧
    elevation_gain_spec [0, 100, 0, 0] = 25/3 ∧
    elevation_gain [0, 100, 0, 0] ≠ elevation_gain_spec [0, 100, 0, 0] := by
  refine ⟨?_, ?_, ?_⟩ <;>
  norm_num +decide [elevation_gain, elevation_gain_spec, moving_average,
    smoothWindows, gainSum, List.range_succ]

/-- Claim C9 (amended): for series of at least five samples the gain is
computed over the centered window-5 shrinking moving average exactly as the
claim describes, and the gain — the sum of consecutive deltas strictly above
3 m — is never negative; series shorter than five samples are used
undenoised. -/
theorem c9_amended_gain :
    (∀ es : List ℚ, 5 ≤ es.length →
       elevation_gain es = elevation_gain_spec es) ∧
    (∀ es : List ℚ, es.length < 5 → moving_average es 5 = es) ∧
    (∀ es : List ℚ, 0 ≤ elevation_gain es) := by
  refine ⟨?_, ?_, ?_⟩
  · intro es h
    unfold elevation_gain elevation_gain_spec moving_average
    rw [if_neg (by omega)]
  · intro es h
    unfold moving_average
    rw [if_pos h]
  · intro es
    exact gainSum_nonneg _

/-- Claim C9, witness: the window agreement applied to a concrete
five-sample series. -/
theorem c9_gain_witness :
    5 ≤ ([0, 0, 0, 0, 100] : List ℚ).length ∧
    elevation_gain [0, 0, 0, 0, 100] =
      elevation_gain_spec [0, 0, 0, 0, 100] :=
  ⟨by decide, c9_amended_gain.1 _ (by decide)⟩

/-- Claim C10: `max_elev_m = 0.0` behaves exactly like an absent
`max_elev_m` (the source selects the elevation with a truthiness `or`), so a
route whose computed maximum elevation is 0.0 falls back to
`elevationMeters` and can still receive an altitude multiplier above 1.0:
with `elevationMeters = 4000` the multiplier is 1.30 and a 10 km route
scores S_km = 13. -/
theorem c10_zero_max_elev_truthiness :
    (∀ (input : InputData) (distance_km gain_m slope_avg : Option ℚ),
       estimate_difficulty input distance_km gain_m (some 0) slope_avg =
         estimate_difficulty input distance_km gain_m none slope_avg) ∧
    pickElev (some 0) (some 4000) = some 4000 ∧
    get_elevation_multiplier (pickElev (some 0) (some 4000)) = 13/10 ∧
    (1 : ℚ) < 13/10 ∧
    (estimate_difficulty
      { elevationMeters := some 4000, hasAcclimatization := true }
      (some 10) (some 0) (some 0) none).2.1 = 13 := by
  refine ⟨?_, ?_, ?_, ?_, ?_⟩
  · intro input dk gm sa
    cases h : trailOverride input.trailDifficulty with
    | some lab => simp [estimate_difficulty, h]
    | none =>
      cases hd : dk with
      | some D => simp [estimate_difficulty, h, scoreRoute_some_zero]
      | none =>
        cases hi : infer_distance_km input with
        | some D => simp [estimate_difficulty, h, hi, scoreRoute_some_zero]
        | none => simp [estimate_difficulty, h, hi]
  · norm_num [pickElev]
  · norm_num +decide [pickElev, get_elevation_multiplier, interpAnchors,
      ELEVATION_ANCHORS]
  · norm_num
  · norm_num +decide [estimate_difficulty, trailOverride, scoreRoute,
      optCorrections, pickElev, get_elevation_multiplier, interpAnchors,
      ELEVATION_ANCHORS, classifyS, applyAccess, applySubCategory, upperStr,
      lowerStr, needs_acclimatization_penalty, has_long_exposure,
      has_extreme_cold, has_heavy_load, is_high_latitude, round2, rndHalfEven,
      List.foldl]
